import Mathlib

/-!
Verification of the natural-language-to-SQL orchestration engine of
mysql-hub-mcp, centred on `src/app_mcp_server/ai_worker.py` together with the
entry guard in `src/app_mcp_server/mcp_server.py`.

The Python code is shallowly embedded: dictionaries returned by the AI
backend become the `AIResponse` structure, JSON values become `Jval`,
stateful collaborators (the AI backend, the database manager, the two local
tools) become explicit function parameters, and Python exceptions become
`Except` values.  Pure string manipulation (str.strip, str.upper,
str.isdigit, substring search and the specific regular expressions used by
the source) is implemented over `List Char`, following CPython semantics for
the exact patterns appearing in the source.
-/

set_option maxRecDepth 10000

/-! ## Python string primitives -/

/-- Python whitespace characters (`str.strip` with no argument, `\s` in `re`),
restricted to the ASCII range used throughout this code base. -/
def isPyWs (c : Char) : Bool :=
  c = ' ' || c = '\t' || c = '\n' || c = '\r' || c = '\x0b' || c = '\x0c'

/-- Left trim, as the first half of Python `str.strip()`. -/
def stripCharsLeft (l : List Char) : List Char := l.dropWhile isPyWs

/-- Python `str.strip()` over a character list: drop leading and trailing
whitespace. -/
def stripChars (l : List Char) : List Char :=
  ((l.dropWhile isPyWs).reverse.dropWhile isPyWs).reverse

/-- Python `str.strip()`. -/
def pyStrip (s : String) : String := ⟨stripChars s.data⟩

/-- Python `str.startswith(t)`. -/
def pyStartsWith (s t : String) : Bool := t.data.isPrefixOf s.data

/-- Occurrence of `needle` as a contiguous substring (Python `needle in s`). -/
def containsSub (needle : List Char) : List Char → Bool
  | [] => needle.isPrefixOf []
  | c :: rest => needle.isPrefixOf (c :: rest) || containsSub needle rest

/-- Python `sub in s`. -/
def pyContains (s sub : String) : Bool := containsSub sub.data s.data

/-- Python `str.upper()` (ASCII letters; the strings compared in the source
are ASCII SQL keywords). -/
def pyUpper (s : String) : String := ⟨s.data.map Char.toUpper⟩

/-- Python `str.isdigit()`: non-empty and every character a digit.  The
source is only ever called on user questions; the model covers the ASCII
digits `0`-`9` (CPython additionally accepts some Unicode digit
characters). -/
def pyIsDigit (s : String) : Bool :=
  !s.data.isEmpty && s.data.all (fun c => '0' ≤ c && c ≤ '9')

/-! ## JSON values

Python values produced by `json.loads` / consumed by `json.dumps` (module
`json` of the standard library).  `Jval.null` doubles as Python `None`,
which is exactly how `json` maps it. -/

inductive Jval where
  | null
  | bool (b : Bool)
  | num (n : Int)
  | str (s : String)
  | arr (elems : List Jval)
  | obj (fields : List (String × Jval))
deriving Repr

/-- Lookup of a key in a JSON object member list (first match wins, as in a
Python dict built by `json.loads`, whose keys are unique with the last
duplicate winning; the inputs in this development have unique keys). -/
def jLookup (key : String) : List (String × Jval) → Option Jval
  | [] => none
  | (k, v) :: rest => if k = key then some v else jLookup key rest

/-- Python `d.get(key)` on a parsed JSON object: `None` when absent. -/
def jGet (key : String) (fields : List (String × Jval)) : Jval :=
  (jLookup key fields).getD Jval.null

/-! ### A model of `json.loads`

Recursive-descent parser over `List Char` with explicit fuel, modelling the
strict mode of `json.loads`: the whole input (up to surrounding JSON
whitespace) must be one value.  Strings support the standard single-letter
escapes; `\uXXXX` escapes and floating-point numbers are beyond what any
input in this repository's claims exercises and are rejected by the model. -/

def isJsonWs (c : Char) : Bool := c = ' ' || c = '\t' || c = '\n' || c = '\r'

def skipJsonWs (l : List Char) : List Char := l.dropWhile isJsonWs

def parseJsonEscape (l : List Char) : Option (Char × List Char) :=
  match l with
  | '"' :: rest => some ('"', rest)
  | '\\' :: rest => some ('\\', rest)
  | '/' :: rest => some ('/', rest)
  | 'n' :: rest => some ('\n', rest)
  | 't' :: rest => some ('\t', rest)
  | 'r' :: rest => some ('\r', rest)
  | 'b' :: rest => some ('\x08', rest)
  | 'f' :: rest => some ('\x0c', rest)
  | _ => none

/-- Parse the body of a JSON string after the opening quote. -/
def parseJsonStringBody : Nat → List Char → Option (String × List Char)
  | 0, _ => none
  | _, [] => none
  | fuel + 1, c :: rest =>
    if c = '"' then some ("", rest)
    else if c = '\\' then
      match parseJsonEscape rest with
      | some (e, rest') =>
        match parseJsonStringBody fuel rest' with
        | some (s, rest'') => some (⟨e :: s.data⟩, rest'')
        | none => none
      | none => none
    else if c < ' ' then none   -- control characters are invalid in strict mode
    else
      match parseJsonStringBody fuel rest with
      | some (s, rest') => some (⟨c :: s.data⟩, rest')
      | none => none

def isDigitChar (c : Char) : Bool := '0' ≤ c && c ≤ '9'

def digitsToNat (acc : Nat) : List Char → Nat
  | [] => acc
  | c :: rest => digitsToNat (acc * 10 + (c.toNat - '0'.toNat)) rest

/-- Parse a JSON integer (sign and digits). -/
def parseJsonInt (l : List Char) : Option (Int × List Char) :=
  let (neg, l') := match l with
    | '-' :: rest => (true, rest)
    | _ => (false, l)
  let digits := l'.takeWhile isDigitChar
  let rest := l'.dropWhile isDigitChar
  if digits.isEmpty then none
  else
    let n : Int := Int.ofNat (digitsToNat 0 digits)
    some (if neg then -n else n, rest)

mutual

def parseJsonValue : Nat → List Char → Option (Jval × List Char)
  | 0, _ => none
  | fuel + 1, l =>
    match skipJsonWs l with
    | [] => none
    | c :: rest =>
      if c = '{' then
        match skipJsonWs rest with
        | '}' :: rest' => some (Jval.obj [], rest')
        | rest' => match parseJsonMembers fuel rest' with
          | some (fields, rest'') => some (Jval.obj fields, rest'')
          | none => none
      else if c = '[' then
        match skipJsonWs rest with
        | ']' :: rest' => some (Jval.arr [], rest')
        | rest' => match parseJsonElements fuel rest' with
          | some (elems, rest'') => some (Jval.arr elems, rest'')
          | none => none
      else if c = '"' then
        match parseJsonStringBody (fuel + 1) rest with
        | some (s, rest') => some (Jval.str s, rest')
        | none => none
      else if c = 't' then
        if ['r', 'u', 'e'].isPrefixOf rest then some (Jval.bool true, rest.drop 3)
        else none
      else if c = 'f' then
        if ['a', 'l', 's', 'e'].isPrefixOf rest then some (Jval.bool false, rest.drop 4)
        else none
      else if c = 'n' then
        if ['u', 'l', 'l'].isPrefixOf rest then some (Jval.null, rest.drop 3)
        else none
      else
        match parseJsonInt (c :: rest) with
        | some (n, rest') => some (Jval.num n, rest')
        | none => none

/-- Members of an object, positioned at the first key (after `{` and
whitespace). -/
def parseJsonMembers : Nat → List Char → Option (List (String × Jval) × List Char)
  | 0, _ => none
  | fuel + 1, l =>
    match skipJsonWs l with
    | '"' :: rest =>
      match parseJsonStringBody (fuel + 1) rest with
      | some (key, rest') =>
        (match skipJsonWs rest' with
         | ':' :: rest'' =>
           match parseJsonValue fuel rest'' with
           | some (v, rest3) =>
             (match skipJsonWs rest3 with
              | ',' :: rest4 =>
                (match parseJsonMembers fuel rest4 with
                 | some (fields, rest5) => some ((key, v) :: fields, rest5)
                 | none => none)
              | '}' :: rest4 => some ([(key, v)], rest4)
              | _ => none)
           | none => none
         | _ => none)
      | none => none
    | _ => none

/-- Elements of an array, positioned at the first element. -/
def parseJsonElements : Nat → List Char → Option (List Jval × List Char)
  | 0, _ => none
  | fuel + 1, l =>
    match parseJsonValue fuel l with
    | some (v, rest) =>
      (match skipJsonWs rest with
       | ',' :: rest' =>
         (match parseJsonElements fuel rest' with
          | some (elems, rest'') => some (v :: elems, rest'')
          | none => none)
       | ']' :: rest' => some ([v], rest')
       | _ => none)
    | none => none

end

/-- Model of `json.loads`: parse one value, tolerate surrounding JSON
whitespace, reject trailing garbage (`None` models a raised
`JSONDecodeError`). -/
def jsonLoads (s : String) : Option Jval :=
  match parseJsonValue (s.data.length * 2 + 4) s.data with
  | some (v, rest) => if (skipJsonWs rest).isEmpty then some v else none
  | none => none

/-! ### A model of `json.dumps(..., ensure_ascii=False)` -/

def jsonEscapeChar (c : Char) : List Char :=
  if c = '"' then ['\\', '"']
  else if c = '\\' then ['\\', '\\']
  else if c = '\n' then ['\\', 'n']
  else if c = '\t' then ['\\', 't']
  else if c = '\r' then ['\\', 'r']
  else [c]

def jsonEscape (s : String) : String := ⟨s.data.flatMap jsonEscapeChar⟩

mutual

def jsonDumpVal : Jval → String
  | Jval.null => "null"
  | Jval.bool true => "true"
  | Jval.bool false => "false"
  | Jval.num n => toString n
  | Jval.str s => "\"" ++ jsonEscape s ++ "\""
  | Jval.arr elems => "[" ++ jsonDumpElems elems ++ "]"
  | Jval.obj fields => "\x7b" ++ jsonDumpFields fields ++ "\x7d"

def jsonDumpElems : List Jval → String
  | [] => ""
  | [v] => jsonDumpVal v
  | v :: rest => jsonDumpVal v ++ ", " ++ jsonDumpElems rest

def jsonDumpFields : List (String × Jval) → String
  | [] => ""
  | [(k, v)] => "\"" ++ jsonEscape k ++ "\": " ++ jsonDumpVal v
  | (k, v) :: rest =>
    "\"" ++ jsonEscape k ++ "\": " ++ jsonDumpVal v ++ ", " ++ jsonDumpFields rest

end

/-- Python `json.dumps(v, ensure_ascii=False)` with default separators. -/
def jsonDumps (v : Jval) : String := jsonDumpVal v

/-! ## The regular expressions of `ai_worker.py`

Each pattern used by the source is implemented directly with CPython
backtracking semantics: leftmost starting position first; a greedy `\s*`
tries the longest whitespace run first and backtracks; a non-greedy `(.*?)`
stops at the first position where the remainder of the pattern matches. -/

/-- Split at the first occurrence of `needle`: characters strictly before
it, and characters strictly after it. -/
def findSplitAfter (needle : List Char) : List Char → Option (List Char × List Char)
  | [] => if needle.isEmpty then some ([], []) else none
  | c :: rest =>
    if needle.isPrefixOf (c :: rest) then some ([], (c :: rest).drop needle.length)
    else
      match findSplitAfter needle rest with
      | some (pre, post) => some (c :: pre, post)
      | none => none

/-- With DOTALL, the non-greedy group of `(.*?)\n```` ``` `` is everything before
the first occurrence of the closing newline-fence. -/
def fenceBodyUpToClose (l : List Char) : Option (List Char) :=
  match findSplitAfter ['\n', '`', '`', '`'] l with
  | some (body, _) => some body
  | none => none

/-- Greedy `\s*` followed by a literal newline, then the non-greedy body:
consume `k` whitespace characters (longest first, backtracking downwards),
require a newline, then find the closing fence. -/
def tryWsThenNl (rest : List Char) : Nat → Option (List Char)
  | 0 => if rest.head? = some '\n' then fenceBodyUpToClose (rest.drop 1) else none
  | k + 1 =>
    (if (rest.drop (k + 1)).head? = some '\n' then fenceBodyUpToClose (rest.drop (k + 2)) else none)
    <|> tryWsThenNl rest k

/-- Attempt the pattern `openTok \s*\n (.*?) \n```` ``` `` at this exact position. -/
def matchFenceAt (openTok : List Char) (l : List Char) : Option (List Char) :=
  if openTok.isPrefixOf l then
    let rest := l.drop openTok.length
    tryWsThenNl rest (rest.takeWhile isPyWs).length
  else none

/-- Model of `re.search(openTok + r'\s*\n(.*?)\n\x60\x60\x60', s, re.DOTALL)`,
returning `group(1)`; used with `openTok` = ```` ```sql ```` and ```` ``` ````. -/
def searchFence (openTok : List Char) : List Char → Option (List Char)
  | [] => none
  | c :: rest =>
    match matchFenceAt openTok (c :: rest) with
    | some g => some g
    | none => searchFence openTok rest

/-- Body of `(.*?)` without DOTALL followed by ```` ``` ``: no newline may occur
before the first closing fence. -/
def singleLineBody : List Char → Option (List Char)
  | [] => none
  | c :: rest =>
    if ['`', '`', '`'].isPrefixOf (c :: rest) then some []
    else if c = '\n' then none
    else
      match singleLineBody rest with
      | some body => some (c :: body)
      | none => none

/-- Model of `re.search(r'\x60\x60\x60(.*?)\x60\x60\x60', s)`, returning
`group(1)`. -/
def searchSingleLineFence : List Char → Option (List Char)
  | [] => none
  | c :: rest =>
    (if ['`', '`', '`'].isPrefixOf (c :: rest) then singleLineBody ((c :: rest).drop 3) else none)
    <|> searchSingleLineFence rest

/-- `strip_markdown_sql` of `ai_worker.py`: try the ```` ```sql ```` fence, then
the untagged multi-line fence, then the single-line fence; otherwise strip
whitespace. -/
def strip_markdown_sql (sql_query : String) : String :=
  if sql_query = "" then sql_query
  else
    match searchFence ['`', '`', '`', 's', 'q', 'l'] sql_query.data with
    | some g => ⟨stripChars g⟩
    | none =>
      match searchFence ['`', '`', '`'] sql_query.data with
      | some g => ⟨stripChars g⟩
      | none =>
        match searchSingleLineFence sql_query.data with
        | some g => ⟨stripChars g⟩
        | none => pyStrip sql_query

/-- Modelled from the spec: the body of `pretty_format_sql` delegates to the
third-party library call `sqlparse.format(sql_query, reindent_aligned=True,
use_space_around_operators=True, indent_width=2, keyword_case='upper',
output_format='sql')`, which is not part of this repository.  Spec section
4.4 stage 5 specifies it as "Pretty-print (keyword case, indentation) —
cosmetic only, must be a no-op on already-clean input"; the minimal
faithful model of such a cosmetic normalizer is the identity function. -/
def sqlparseFormat (sql_query : String) : String := sql_query

/-- `pretty_format_sql` of `ai_worker.py` (the `not isinstance(sql_query, str)`
guard is vacuous for a typed string input; a `sqlparse` exception falls back
to the input, which the identity model subsumes). -/
def pretty_format_sql (sql_query : String) : String :=
  if sql_query = "" then sql_query else sqlparseFormat sql_query

/-- The SQL sanitization pipeline named by the spec: markdown-fence
stripping followed by pretty-printing, as run by `make_clear_sql`. -/
def sanitizeSql (s : String) : String := pretty_format_sql (strip_markdown_sql s)

/-- Model of `re.sub(r'<think>.*?</think>', '', content, flags=re.DOTALL)`:
remove every minimal think-span; an unmatched opening tag is left in
place. -/
def thinkSubAux : Nat → List Char → List Char
  | 0, l => l
  | _ + 1, [] => []
  | fuel + 1, c :: rest =>
    if ['<', 't', 'h', 'i', 'n', 'k', '>'].isPrefixOf (c :: rest) then
      match findSplitAfter ['<', '/', 't', 'h', 'i', 'n', 'k', '>'] ((c :: rest).drop 7) with
      | some (_, post) => thinkSubAux fuel post
      | none => c :: thinkSubAux fuel rest
    else c :: thinkSubAux fuel rest

def pyThinkSub (s : String) : String := ⟨thinkSubAux s.data.length s.data⟩

/-- The think-scratchpad removal applied by the loop and by `make_clear_sql`:
only when the opening tag occurs, substitute and strip. -/
def stripThinkContent (content : String) : String :=
  if pyContains content "<think>" then pyStrip (pyThinkSub content) else content

/-! ## Extraction of a fenced JSON function call

Model of `re.search(r'\x60\x60\x60json\s*([\s\S]+?)\s*\x60\x60\x60', content)`
in `_parse_tool_calls`. -/

/-- The trailing `\s*` then closing fence: a backtick is not whitespace, so
the greedy run with backtracking matches exactly when the closing fence
follows the maximal whitespace run. -/
def closeAfterWs (l : List Char) : Bool :=
  ['`', '`', '`'].isPrefixOf (l.dropWhile isPyWs)

/-- The non-greedy `([\s\S]+?)` (at least one character, any character): the
group stops at the first end position where the trailing part matches. -/
def fencedJsonBody : List Char → Option (List Char)
  | [] => none
  | c :: rest =>
    if closeAfterWs rest then some [c]
    else
      match fencedJsonBody rest with
      | some body => some (c :: body)
      | none => none

/-- Greedy leading `\s*` with backtracking: consume `k` whitespace
characters, longest first. -/
def fencedWsLoop (rest : List Char) : Nat → Option (List Char)
  | 0 => fencedJsonBody rest
  | k + 1 => fencedJsonBody (rest.drop (k + 1)) <|> fencedWsLoop rest k

def tryFencedAt (l : List Char) : Option (List Char) :=
  if ['`', '`', '`', 'j', 's', 'o', 'n'].isPrefixOf l then
    let rest := l.drop 7
    fencedWsLoop rest (rest.takeWhile isPyWs).length
  else none

/-- Leftmost search for the fenced-JSON pattern, returning `group(1)`. -/
def searchFencedJson : List Char → Option (List Char)
  | [] => none
  | c :: rest =>
    match tryFencedAt (c :: rest) with
    | some g => some g
    | none => searchFencedJson rest

/-! ## The data model of `ai_worker.py`

A backend response is a Python dict with optional keys `error`, `content`
and `tool_calls`; `Jval.null` models Python `None` throughout. -/

structure RawFunctionInfo where
  /-- `function_info.get('name')`; `none` models an absent key (a non-string
  name would never match the registry and is not modelled separately). -/
  name : Option String
  /-- `function_info.get('index', 1)`: `none` models an absent key. -/
  index : Option Nat
  /-- `function_info.get('arguments')`: `Jval.null` models both an absent
  key and an explicit `null`, exactly as Python collapses both to `None`. -/
  arguments : Jval
deriving Repr

structure RawToolCall where
  /-- `tool_call.get('id', None)`. -/
  id : Option String
  /-- `tool_call.get('function', ...)` falling back to the empty dict, which
  yields `name = None`, default index and `arguments = None`. -/
  function : Option RawFunctionInfo
deriving Repr

inductive ToolCallsField where
  /-- The key `tool_calls` is not present in the response dict. -/
  | absent
  /-- The key is present and holds a Python list. -/
  | list (cs : List RawToolCall)
  /-- The key is present with a non-list value; `truthy` records its Python
  truthiness (`None`, `0`, `""` are falsy). -/
  | nonList (truthy : Bool)
deriving Repr

structure AIResponse where
  error : Option String := none
  content : Option String := none
  tool_calls : ToolCallsField := ToolCallsField.absent
deriving Repr

/-- One canonical tool call as produced by `_parse_tool_calls`. -/
structure ParsedToolCall where
  tool_call_id : Option String
  name : Option String
  index : Nat
  arguments : Jval
deriving Repr

structure Message where
  role : String
  content : String
  tool_call_id : Option String := none
  name : Option String := none
deriving Repr, DecidableEq

/-- One entry of the `tool_results` list built by `_exec_tool_response`. -/
structure ToolResultRec where
  tool_call_id : Option String
  name : String
  content : String
deriving Repr, DecidableEq

/-- The `data` payload of a `Response`: `make_clear_sql` produces only the
generated SQL, the finalizer adds the query result. -/
inductive DataVal where
  | sqlOnly (sql_query : String)
  | sqlResult (sql_query : String) (result : Jval)
deriving Repr

/-- The pydantic `Response` model of `common.py`. -/
structure WorkResponse where
  success : Bool
  data : Option DataVal := none
  error : Option String := none
deriving Repr

/-! ## `_parse_tool_calls` -/

/-- One structured `tool_calls` entry.  A string `arguments` value is
JSON-decoded; on decode failure the `except ...: pass` keeps the raw
string.  Only a `None` value is replaced by the empty dict. -/
def parseStructuredEntry (tc : RawToolCall) : ParsedToolCall :=
  let fi := tc.function.getD ⟨none, none, Jval.null⟩
  let args :=
    match fi.arguments with
    | Jval.str s =>
      match jsonLoads s with
      | some v => v
      | none => Jval.str s
    | v => v
  let args :=
    match args with
    | Jval.null => Jval.obj []
    | v => v
  { tool_call_id := tc.id, name := fi.name, index := fi.index.getD 1, arguments := args }

/-- Extract a string field from a parsed JSON object (`.get(key)`); a
missing or non-string value gives `none`. -/
def jStrField (fields : List (String × Jval)) (key : String) : Option String :=
  match jGet key fields with
  | Jval.str s => some s
  | _ => none

/-- The free-text branch of `_parse_tool_calls`, reached only when the
response has no `tool_calls` key but has `content`.  The fenced branch runs
under a `try` whose failures are printed and swallowed; the bare branch has
no `try`, so a decode failure or an attribute error on a non-dict value
propagates as an exception (`Except.error`). -/
def parseContentToolCalls (content : String) : Except String (List ParsedToolCall) :=
  if pyStartsWith (pyStrip content) ("```json\n\x7b\n") then
    match searchFencedJson content.data with
    | some jstr =>
      (match jsonLoads ⟨jstr⟩ with
       | some (Jval.obj fields) =>
         .ok [{ tool_call_id := none, name := jStrField fields ("name"), index := 1,
                arguments := jGet ("arguments") fields }]
       | some _ => .ok []
       | none => .ok [])
    | none => .ok []
  else if pyStartsWith (pyStrip content) ("\x7b\"name\"") then
    match jsonLoads content with
    | some (Jval.obj fields) =>
      .ok [{ tool_call_id := none, name := jStrField fields ("name"), index := 1,
             arguments := jGet ("arguments") fields }]
    | some _ => .error ("AttributeError: parsed content is not a dict")
    | none => .error ("json.decoder.JSONDecodeError")
  else
    .ok []

/-- `_parse_tool_calls` of `ai_worker.py`.  The `if not response` guard is
vacuous for a typed dict.  Iterating a present non-list `tool_calls` value
raises `TypeError` outside the per-entry `try` (for the unrepresentative
iterable cases, a string or a dict, every element would be discarded by
that `try`). -/
def parse_tool_calls (response : AIResponse) : Except String (List ParsedToolCall) :=
  match response.tool_calls, response.content with
  | ToolCallsField.absent, none => .ok []
  | ToolCallsField.list cs, _ => .ok (cs.map parseStructuredEntry)
  | ToolCallsField.nonList _, _ => .error ("TypeError: tool_calls value is not iterable")
  | ToolCallsField.absent, some content => parseContentToolCalls content

/-! ## `_exec_tool_response` -/

/-- The executable tool registry (`available_tools`); `get_database_info` is
advertised in `tools_definition` but has no entry here. -/
def available_tools : List String := ["get_table_list", "get_table_schema"]

/-- The names advertised to the backend in `tools_definition` (the full
definitions also carry descriptions and JSON-schema parameter contracts,
which no claim inspects). -/
def tools_definition_names : List String :=
  ["get_database_info", "get_table_list", "get_table_schema"]

/-- Python `functoin_to_call(**func_args)`: unpacking a non-mapping raises
`TypeError` before the tool body runs; otherwise the tool itself (modelled
by `impl`, which may itself raise, e.g. on unexpected keywords or a
database failure) runs. -/
def pyCallTool (impl : String → Jval → Except String Jval) (name : String) (args : Jval) :
    Except String Jval :=
  match args with
  | Jval.obj _ => impl name args
  | _ => .error ("TypeError: argument after ** must be a mapping")

/-- The body of the per-call loop in `_exec_tool_response`: a registered
tool runs under `try`; on success the result is serialized with
`json.dumps`, on any exception the error is serialized as a JSON object
with a single `error` field.  An unregistered (or missing) name only logs
and appends nothing. -/
def execOneToolCall (impl : String → Jval → Except String Jval) (tc : ParsedToolCall) :
    Option ToolResultRec :=
  match tc.name with
  | some n =>
    if n ∈ available_tools then
      some { tool_call_id := tc.tool_call_id, name := n,
             content :=
               match pyCallTool impl n tc.arguments with
               | .ok v => jsonDumps v
               | .error e => jsonDumps (Jval.obj [("error", Jval.str e)]) }
    else none
  | none => none

/-- `_exec_tool_response` of `ai_worker.py` (the `if not response` guard is
vacuous for a typed dict). -/
def exec_tool_response (impl : String → Jval → Except String Jval) (response : AIResponse) :
    Except String (List ToolResultRec) :=
  match parse_tool_calls response with
  | .ok parsed => .ok (parsed.filterMap (execOneToolCall impl))
  | .error e => .error e

/-! ## `make_clear_sql` and `_finalize_sql_response` -/

def error_indicators : List String :=
  ["질문이 불명확합니다", "응답 생성 중 오류", "죄송합니다", "이해할 수 없습니다",
   "모호합니다", "다시 질문해 주세요"]

def sql_keywords : List String :=
  ["SELECT", "FROM", "WHERE", "INSERT", "UPDATE", "DELETE", "CREATE", "DROP", "ALTER"]

/-- Schematic stand-in for CPython `str(response)`, used by `make_clear_sql`
only when the response dict has no `content` key; no claim evaluates this
rendering. -/
def pyStrResponse (r : AIResponse) : String :=
  let err := match r.error with
    | some e => "'error': '" ++ e ++ "', "
    | none => ""
  let tcs := match r.tool_calls with
    | ToolCallsField.absent => ""
    | ToolCallsField.list _ => "'tool_calls': [...], "
    | ToolCallsField.nonList _ => "'tool_calls': ..., "
  "\x7b" ++ err ++ tcs ++ "\x7d"

/-- `make_clear_sql` of `ai_worker.py` (the `if not response` guard is
vacuous for a typed dict). -/
def make_clear_sql (response : AIResponse) : WorkResponse :=
  let content :=
    match response.content with
    | some c => c
    | none => pyStrResponse response
  let content := stripThinkContent content
  if error_indicators.any (fun ind => pyContains content ind) then
    { success := false, error := some ("질문이 불명확합니다: " ++ content) }
  else if !(sql_keywords.any (fun kw => pyContains (pyUpper content) kw)) then
    { success := false, error := some ("AI가 SQL 쿼리를 생성하지 못했습니다. 응답: " ++ content) }
  else
    let sql_query := strip_markdown_sql content
    if sql_query = "" || pyStartsWith sql_query ("응답 생성 중 오류") then
      { success := false, error := some ("SQL 생성 실패: " ++ sql_query) }
    else
      { success := true, data := some (DataVal.sqlOnly (pretty_format_sql sql_query)) }

/-- `_finalize_sql_response` of `ai_worker.py`.  When the trimmed content
starts with a fenced or bare JSON function-call prefix the source only
writes a log line inside the `if` branch and control falls off the end of
the function, so Python returns `None` (modelled as `none`).  Otherwise the
extracted SQL is executed through the database manager (`dbExec`), whose
exceptions the source catches. -/
def finalize_sql_response (dbExec : String → Except String Jval) (response : AIResponse) :
    Option WorkResponse :=
  let content := response.content.getD ""
  if pyStartsWith (pyStrip content) ("```json\n\x7b\n")
      || pyStartsWith (pyStrip content) ("\x7b\"name\"") then
    none
  else
    let result_sql := make_clear_sql response
    if !result_sql.success then some result_sql
    else
      let clean_sql :=
        match result_sql.data with
        | some (DataVal.sqlOnly q) => q
        | _ => ""
      match dbExec clean_sql with
      | .ok rows => some { success := true, data := some (DataVal.sqlResult clean_sql rows) }
      | .error e => some { success := false, error := some ("SQL 실행 오류: " ++ e) }

/-! ## `make_system_prompt` (`prompt.py`)

The template constants are transcribed from the source; `.format`
substitution becomes string concatenation. -/

def default_prompt : String :=
  "\n당신은 사용자의 자연어 질문을 SQL로 변환하는 전문가입니다.\n"

def default_prompt_with_tools : String :=
  "\n당신은 사용자의 자연어 질문을 분석하여, 도구를 사용해 필요한 정보를 수집하고 최종적으로 완벽한 SQL 쿼리를 생성하는 AI 에이전트입니다.\n"
  ++ "\n## 🚨 매우 중요한 규칙\n**절대로 도구를 사용하지 않고 SQL을 생성하지 마세요!**\n**반드시 다음 순서를 따라야 합니다:**\n"
  ++ "\n## 지시사항\n1.  **사고(Thinking) 단계:** 먼저 사용자의 질문을 분석하여 어떤 정보가 필요한지 계획을 세웁니다.\n"
  ++ "2.  **도구 사용(Tool Use) 단계:** 계획에 따라 필요한 도구를 반드시 사용해야 합니다.\n"
  ++ "    - **1순위:** `get_table_list()`를 반드시 호출하여 테이블 목록을 파악합니다.\n"
  ++ "    - **2순위:** 질문과 관련성이 높은 데이터베이스 테이블 들을 추론합니다. \n"
  ++ "    - **3순위:** 해당 테이블들에 대해서는 모두 `get_table_schema(\"table_name\")`를 호출(필수)하여 테이블 구조를 파악합니다. table_name은 반드시 영문으로 전달합니다.\n"
  ++ "    - **4순위:** 모든 정보가 수집되었다고 판단되면, SQL을 생성합니다.\n"
  ++ "3.  **최종 답변(Final Answer) 단계:**\n"
  ++ "    - 모든 정보 수집이 완료되면, 분석한 내용을 바탕으로 **순수한 SQL 쿼리 하나만** 생성합니다.\n"
  ++ "    - <think> ~~ </think>와 같은 사고 과정의 내용은 절대 포함하지 마세요.\n"
  ++ "    - 마크다운(```), 설명, 주석 없이 오직 SQL 쿼리만 반환해야 합니다.\n"
  ++ "    - SQL 쿼리는 반드시 세미콜론(;)으로 끝나야 합니다.\n"
  ++ "    - 최종 답변은 반드시 순수한 SQL 쿼리만 반환해야 합니다.\n"
  ++ "\n## ⚠️ 금지사항\n- 도구를 사용하지 않고 바로 SQL을 생성하는 것은 절대 금지\n"
  ++ "- 테이블 목록을 확인하지 않고 SQL을 생성하는 것은 절대 금지\n"
  ++ "- 존재하지 않는 테이블이나 컬럼을 사용하는 것은 절대 금지\n"
  ++ "- 스키마 정보 없이 SQL을 생성하는 것은 절대 금지\n\n"
  ++ "\n## 📝 올바른 사용 예시\n**올바른 순서:**\n"
  ++ "1. `get_table_list()` 호출 → 테이블 목록 확인\n"
  ++ "2. 관련 테이블들에 대해서 모두 `get_table_schema(\"table_name\")` 호출(테이블 수만큼 반복) → 각 테이블들의 구조 확인\n"
  ++ "3. SQL 쿼리 생성\n"
  ++ "\n**잘못된 순서 (절대 금지):**\n- 바로 SQL 쿼리 생성 ❌\n- 테이블 목록 확인 없이 SQL 생성 ❌\n- 스키마 정보 없이 SQL 생성 ❌\n"

def basic_rule_prompt : String :=
  "\n⚠️ 매우 중요한 규칙:\n**1. \"따옴표(Quote) 내용 절대 보존 원칙\"**\n"
  ++ "  - 작은따옴표(' ') 또는 큰따옴표(\" \")로 감싸인 모든 단어나 문장은 **어떠한 경우에도 번역하거나 변형하지 마세요.**\n"
  ++ "  - 주어진 그대로, 문자 그대로(as-is, literal) 출력에 포함시켜야 합니다. 이는 주로 SQL의 값(value)이나 특정 식별자에 해당합니다.\n"
  ++ " ✅ **올바른 예시:**\n  - 입력: '노트북'을 구매한 사용자 검색\n  - SQL: `WHERE product_name = '노트북'`\n"
  ++ "\n  - 입력: 사용자가 'Laptop'을 구매했을 때\n  - SQL: `WHERE product_name = 'Laptop'`\n"
  ++ "\n ❌ **잘못된 예시:**\n  - 입력: '노트북'을 구매한 사용자 검색\n  - SQL: `WHERE product_name = 'notebook'` (오역)\n"
  ++ "**2. \"영어 단어 및 기술 용어 보존 원칙\"**\n"
  ++ "  - 따옴표가 없더라도, 영어로 된 기술 용어, 제품명, 고유명사는 한국어로 번역하지 말고 원문 그대로 사용하세요.\n"
  ++ "  - 예: `Database`, `Table`, `Primary Key`, `SELECT` 등\n"
  ++ "**3. 최종 답변은 반드시 순수한 SQL 쿼리만 반환해야 합니다.\n**4. SQL 쿼리 1개만 반환하세요\n"
  ++ "**5. 마크다운 형식(```)을 절대 사용하지 마세요\n**6. 설명, 주석, 추가 텍스트를 제외하고 순수한 SQL 쿼리만 반환하세요\n"
  ++ "**7. 세미콜론(;)으로 끝내세요\n"
  ++ "**8. 질문이 모호하거나 문장구성이 불완전한 경우 '질문이 불명확합니다. 다시 질문해 주세요.' 라고 예외처리 및 반환하세요.\n"
  ++ "  - 예시: 'afdksafdsalfj', 'ㅁ렁ㄴ123ㅓ  마ㅣㄹaaghgl'등.\n"
  ++ "**9. ID는 시스템에게만 의미있는 값이므로 ID보다는 이름(명) 필드를 SQL의 조회 필드로 사용하세요.\n"
  ++ "  - 예시: user_id 보다는 user_name 필드를 조회 필드로 사용하세요.\n"
  ++ "  - ID가 사용자 질의에 '~id', '~번호' 등으로 표시되어 있는 경우에만 필드로 사용하세요.\n"
  ++ "**10. DB가 MySQL일 경우: SQL생성할 때 sub query에서는 LIMIT/IN/ALL/ANY/SOME 사용 불가\n"
  ++ "  - MySQL doesn't yet support 'LIMIT & IN/ALL/ANY/SOME subquery'\n"
  ++ "  - 해결 방법: 아래와 같이, 별칭(alias)를 주는 방법으로 사용할 수는 있다\n"
  ++ "  - 예시: SELECT * FROM (SELECT * FROM UserInfo WHERE CreateDate >= '2010-01-01' LIMIT 0,10) AS temp_tbl;   \n"

def use_tools_prompt : String :=
  "\n\n=== 사용할 수 있는 도구 ===\n- get_table_list()\n- get_table_schema(\"table_name\")\n"
  ++ "\n=== 🚨 tool 사용 순서 (절대적으로 필수): ===\n"
  ++ "🚨 첫 번째 단계: 반드시 get_table_list()를 호출하여 사용 가능한 테이블 목록을 확인하세요\n"
  ++ "🚨 두 번째 단계: 질문과 가장 관련성이 높은 테이블 1~3개를 추론하고 \n"
  ++ "🚨 세 번째 단계: 추론한 테이블들에 대해서 테이블의 스키마를 get_table_schema(\"테이블명\")로 조회하세요\n"
  ++ "🚨 네 번째 단계: 스키마 정보를 확인한 후에만 SQL 쿼리를 생성하세요\n"
  ++ "\n🚫 절대 금지사항:\n- 테이블 목록을 확인(get_table_list)하지 않고 SQL을 생성하지 마세요\n"
  ++ "- 존재하지 않는 테이블 이름을 사용하지 마세요\n- 존재하지 않는 컬럼 이름을 사용하지 마세요\n"
  ++ "- 스키마 정보 없이 SQL을 생성하지 마세요\n"

def database_prompt (database_name schema_info : String) : String :=
  "\n\n=== 데이터베이스: " ++ database_name ++ " \n\n=== 테이블 스키마 정보 ===\n"
  ++ schema_info ++ "\n\n"

def close_prompt (question : String) : String :=
  "\n\n=== 질문 ===\n" ++ question ++ "\n\n"

def make_system_prompt (database_name schema_info question : String) (use_tools : Bool) :
    String :=
  if use_tools then
    default_prompt_with_tools ++ basic_rule_prompt ++ use_tools_prompt ++ close_prompt question
  else
    default_prompt ++ basic_rule_prompt ++ database_prompt database_name schema_info
      ++ close_prompt question

/-! ## The orchestration loop (`_natural_language_query_with_tools`)

External collaborators become parameters: `backend i` is the value the
`ai_manager.generate_response` call of the `i`-th turn returns, `dbExec`
models `db_manager.execute_query`, and `impl` models the two local tool
functions (which delegate to the database manager).  The loop is a
`while tool_call_count < max_tool_calls` loop; `fuel` is the number of
remaining permitted iterations (`max_tool_calls - tool_call_count`), and
`count` is the current `tool_call_count`.  Besides the Python return value
the model returns the trace of conversations passed to the backend, one
entry per backend call, so that theorems can speak about how many backend
calls were made and what each one saw. -/

/-- The think-scratchpad removal applied to `response["content"]` at the top
of each loop iteration. -/
def thinkStripResponse (r : AIResponse) : AIResponse :=
  match r.content with
  | some c =>
    if pyContains c ("<think>") then { r with content := some (pyStrip (pyThinkSub c)) } else r
  | none => r

/-- A collected tool result appended to the conversation as a tool-role
message. -/
def toolMsg (tr : ToolResultRec) : Message :=
  { role := "tool", content := tr.content, tool_call_id := tr.tool_call_id,
    name := some tr.name }

def iterLimitResponse (maxCalls : Nat) : WorkResponse :=
  { success := false,
    error := some ("Tool 호출 횟수가 최대 제한(" ++ toString maxCalls
      ++ ")을 초과했습니다. 질문을 더 구체적으로 작성해주세요.") }

def backendFailResponse (e : String) : WorkResponse :=
  { success := false, error := some ("AI 응답 생성 실패: " ++ e) }

def badToolCallsResponse : WorkResponse :=
  { success := false, error := some ("AI 응답의 tool_calls 필드가 올바르지 않습니다.") }

/-- The generic `except Exception` handler wrapping the whole loop body. -/
def loopCatchResponse (e : String) : WorkResponse :=
  { success := false, error := some ("Tool 방식 처리 중 오류가 발생했습니다: " ++ e) }

def agentLoopAux (backend : Nat → AIResponse) (dbExec : String → Except String Jval)
    (impl : String → Jval → Except String Jval) (maxCalls : Nat) :
    Nat → List Message → List ToolResultRec → Nat →
    Option WorkResponse × List (List Message)
  | 0, _msgs, _trs, _count => (some (iterLimitResponse maxCalls), [])
  | fuel + 1, msgs, trs, count =>
    -- `if tool_results:` — every accumulated result is (re-)appended; the
    -- list is never cleared in the source
    let msgs := msgs ++ trs.map toolMsg
    let response := thinkStripResponse (backend count)
    match response.error with
    | some e => (some (backendFailResponse e), [msgs])
    | none =>
      -- the `isinstance(response, dict)` guard is vacuous for a typed value
      match response.tool_calls with
      | ToolCallsField.absent => (finalize_sql_response dbExec response, [msgs])
      | ToolCallsField.list [] => (finalize_sql_response dbExec response, [msgs])
      | ToolCallsField.nonList truthy =>
        if truthy then (some badToolCallsResponse, [msgs])
        else (finalize_sql_response dbExec response, [msgs])
      | ToolCallsField.list (_ :: _) =>
        match exec_tool_response impl response with
        | .error e => (some (loopCatchResponse e), [msgs])
        | .ok results =>
          -- the `if "error" in result` membership test on a list of dicts
          -- is always false, so execution always proceeds
          let next := agentLoopAux backend dbExec impl maxCalls fuel msgs (trs ++ results)
            (count + 1)
          (next.1, msgs :: next.2)

/-- `max_tool_calls` of `_natural_language_query_with_tools`. -/
def max_tool_calls : Nat := 10

/-- `_natural_language_query_with_tools` of `ai_worker.py`: build the
system/user conversation and run the agent loop. -/
def natural_language_query_with_tools (backend : Nat → AIResponse)
    (dbExec : String → Except String Jval) (impl : String → Jval → Except String Jval)
    (question : String) : Option WorkResponse × List (List Message) :=
  agentLoopAux backend dbExec impl max_tool_calls max_tool_calls
    [{ role := "system", content := make_system_prompt ("") ("") question true },
     { role := "user", content := question }]
    [] 0

/-- `natural_language_query_work(question, use_tools=True)` of
`ai_worker.py`: the wrapper only adds logging and a generic exception
handler around the loop (the legacy `use_tools=False` branch is a separate
code path not cited by any claim about this engine). -/
def natural_language_query_work_tools (backend : Nat → AIResponse)
    (dbExec : String → Except String Jval) (impl : String → Jval → Except String Jval)
    (question : String) : Option WorkResponse × List (List Message) :=
  natural_language_query_with_tools backend dbExec impl question

/-! ## The public entry guard (`mcp_server.natural_language_query`)

The body after the guard (serialization of the result) is abstracted by the
`work` parameter; the guard itself is transcribed.  A raised `ValueError`
is caught by the surrounding `except` and rendered as a failed status
dict. -/

inductive MCPResult where
  | failed (error : String)
  | completed (r : Option WorkResponse)
deriving Repr

/-- The error message of the empty-question guard. -/
def missingQuestionMsg : String := "사용자의 질의 내용이 제공되지 않았습니다."

/-- The error message of the ambiguity guard (purely-numeric or short
question). -/
def ambiguousQuestionMsg : String := "질문 내용이 너무 짧거나 수자로만 되어 있어서 모호합니다."

/-- `natural_language_query` of `mcp_server.py`: the second component
counts how many backend calls the invocation makes (the guard paths make
none; otherwise whatever `work` makes). -/
def mcp_natural_language_query (work : String → Option WorkResponse × Nat)
    (question : String) : MCPResult × Nat :=
  if question = "" then (MCPResult.failed missingQuestionMsg, 0)
  else if pyIsDigit question || (pyStrip question).length < 5 then
    (MCPResult.failed ambiguousQuestionMsg, 0)
  else
    let r := work question
    (MCPResult.completed r.1, r.2)

/-! ## Helper lemmas about the loop -/

theorem thinkStripResponse_error (r : AIResponse) :
    (thinkStripResponse r).error = r.error := by
  unfold thinkStripResponse
  cases hc : r.content with
  | none => rfl
  | some c => by_cases h : pyContains c ("<think>") = true <;> simp [h]

theorem thinkStripResponse_tool_calls (r : AIResponse) :
    (thinkStripResponse r).tool_calls = r.tool_calls := by
  unfold thinkStripResponse
  cases hc : r.content with
  | none => rfl
  | some c => by_cases h : pyContains c ("<think>") = true <;> simp [h]

theorem exec_tool_response_list_ok (impl : String → Jval → Except String Jval)
    (r : AIResponse) (cs : List RawToolCall)
    (h : r.tool_calls = ToolCallsField.list cs) :
    exec_tool_response impl r
      = .ok ((cs.map parseStructuredEntry).filterMap (execOneToolCall impl)) := by
  obtain ⟨er, co, tc⟩ := r
  simp only at h
  subst h
  cases co <;> rfl

theorem agentLoopAux_trace_length_le (backend : Nat → AIResponse)
    (dbExec : String → Except String Jval) (impl : String → Jval → Except String Jval)
    (maxCalls : Nat) :
    ∀ fuel msgs trs count,
      (agentLoopAux backend dbExec impl maxCalls fuel msgs trs count).2.length ≤ fuel := by
  intro fuel
  induction fuel with
  | zero => intro msgs trs count; simp [agentLoopAux]
  | succ n ih =>
    intro msgs trs count
    rw [agentLoopAux]
    split
    · simp
    · split
      · simp
      · simp
      · split <;> simp
      · split
        · simp
        · simpa using Nat.succ_le_succ (ih _ _ _)

theorem agentLoopAux_adversarial (backend : Nat → AIResponse)
    (dbExec : String → Except String Jval) (impl : String → Jval → Except String Jval)
    (maxCalls : Nat)
    (hadv : ∀ i, (backend i).error = none ∧
      ∃ c cs, (backend i).tool_calls = ToolCallsField.list (c :: cs)) :
    ∀ fuel msgs trs count,
      (agentLoopAux backend dbExec impl maxCalls fuel msgs trs count).1
          = some (iterLimitResponse maxCalls)
      ∧ (agentLoopAux backend dbExec impl maxCalls fuel msgs trs count).2.length = fuel := by
  intro fuel
  induction fuel with
  | zero => intro msgs trs count; simp [agentLoopAux]
  | succ n ih =>
    intro msgs trs count
    obtain ⟨he, c, cs, htc⟩ := hadv count
    have he' : (thinkStripResponse (backend count)).error = none := by
      rw [thinkStripResponse_error]; exact he
    have htc' : (thinkStripResponse (backend count)).tool_calls
        = ToolCallsField.list (c :: cs) := by
      rw [thinkStripResponse_tool_calls]; exact htc
    have hex := exec_tool_response_list_ok impl (thinkStripResponse (backend count)) _ htc'
    rw [agentLoopAux]
    simp only [he', htc', hex]
    exact ⟨(ih _ _ _).1, by simp [(ih _ _ _).2]⟩

/-! ## Claim C1 -/

/-- C1: for every question and every backend behaviour the orchestration
loop terminates (it is a total function) making at most `maxToolCalls + 1`
backend calls — the trace records one conversation per backend call — and
when the backend always requests tools it returns the iteration-limit
failure after exactly `maxToolCalls` tool-executing rounds.  The first
conjunct states the bound for the engine entry (`max_tool_calls = 10`), the
second for an arbitrary bound, and the third the adversarial-backend
behaviour. -/
theorem C1_loop_iteration_bound (backend : Nat → AIResponse)
    (dbExec : String → Except String Jval) (impl : String → Jval → Except String Jval)
    (question : String) (maxCalls : Nat) (msgs : List Message) (trs : List ToolResultRec) :
    (natural_language_query_with_tools backend dbExec impl question).2.length
        ≤ max_tool_calls + 1
    ∧ (agentLoopAux backend dbExec impl maxCalls maxCalls msgs trs 0).2.length ≤ maxCalls + 1
    ∧ ((∀ i, (backend i).error = none ∧
          ∃ c cs, (backend i).tool_calls = ToolCallsField.list (c :: cs)) →
        (agentLoopAux backend dbExec impl maxCalls maxCalls msgs trs 0).1
            = some (iterLimitResponse maxCalls)
        ∧ (agentLoopAux backend dbExec impl maxCalls maxCalls msgs trs 0).2.length
            = maxCalls) := by
  refine ⟨?_, ?_, ?_⟩
  · exact Nat.le_succ_of_le (agentLoopAux_trace_length_le backend dbExec impl _ _ _ _ _)
  · exact Nat.le_succ_of_le (agentLoopAux_trace_length_le backend dbExec impl _ _ _ _ _)
  · intro hadv
    exact agentLoopAux_adversarial backend dbExec impl maxCalls hadv _ _ _ _

/-- A backend that always answers with a structured tool call and never a
final answer. -/
def adversarialBackend : Nat → AIResponse := fun _ =>
  { tool_calls := ToolCallsField.list
      [⟨some "1", some ⟨some "get_table_list", none, Jval.obj []⟩⟩] }

def mockImpl : String → Jval → Except String Jval := fun n _ => .ok (Jval.str n)

def mockDb : String → Except String Jval := fun _ => .ok (Jval.arr [])

/-- Witness for C1: against the always-tool-calling backend with
`maxCalls = 10` the loop returns the iteration-limit failure after exactly
ten backend calls. -/
theorem C1_loop_iteration_bound_witness :
    (agentLoopAux adversarialBackend mockDb mockImpl 10 10 [] [] 0).1
        = some (iterLimitResponse 10)
    ∧ (agentLoopAux adversarialBackend mockDb mockImpl 10 10 [] [] 0).2.length = 10 :=
  (C1_loop_iteration_bound adversarialBackend mockDb mockImpl ("") 10 [] []).2.2
    (fun _ => ⟨rfl, ⟨some "1", some ⟨some "get_table_list", none, Jval.obj []⟩⟩, [], rfl⟩)

/-! ## Claims C2 and C3

`_finalize_sql_response` detects the premature-final-answer shape, but the
detecting branch only logs (the log line even says the loop will continue)
and control falls off the end of the function: Python returns `None`, and
`_natural_language_query_with_tools` returns that `None` to its caller
immediately instead of looping. -/

/-- Content carrying a bare JSON function call. -/
def bareCallContent : String := "\x7b\"name\": \"get_table_list\", \"arguments\": \x7b\x7d\x7d"

/-- Content carrying a markdown-fenced JSON function call. -/
def fencedCallContent : String :=
  "```json\n\x7b\n \"name\": \"get_table_schema\", \"arguments\": \x7b\"table_name\": \"users\"\x7d\n\x7d\n```"

/-- A backend whose first response reports no tool calls but puts a fenced
JSON function call into the content; later turns would be ordinary tool
calls, but they are never reached. -/
def prematureFencedBackend : Nat → AIResponse := fun i =>
  if i = 0 then { content := some fencedCallContent } else adversarialBackend i

/-- C2, counter-evidence (the code violates the claim): on a response with
no tool calls whose content starts with the fenced JSON function-call
prefix, the engine does NOT keep looping — it stops after this single
backend call and hands the Python `None` produced by
`_finalize_sql_response` to its caller. -/
theorem C2_premature_final_answer_stops_loop :
    pyStartsWith (pyStrip fencedCallContent) ("```json\n\x7b\n") = true
    ∧ (natural_language_query_with_tools prematureFencedBackend mockDb mockImpl
        ("사용자 목록을 보여줘")).1 = none
    ∧ (natural_language_query_with_tools prematureFencedBackend mockDb mockImpl
        ("사용자 목록을 보여줘")).2.length = 1 :=
  ⟨rfl, rfl, rfl⟩

/-- A backend whose first response reports no tool calls but puts a bare
JSON function call into the content. -/
def prematureBareBackend : Nat → AIResponse := fun i =>
  if i = 0 then { content := some bareCallContent } else adversarialBackend i

/-- C3, counter-evidence (the code violates the claim): the engine can hand
its caller Python `None` — neither a success value nor a typed error —
namely whenever the final content begins with a JSON function-call
prefix. -/
theorem C3_engine_returns_python_none :
    (natural_language_query_work_tools prematureBareBackend mockDb mockImpl
        ("사용자 정보를 조회해줘")).1 = none :=
  rfl

/-! ## Claim C4 -/

/-- A structured response whose single entry has an undecodable string in
its `arguments` field. -/
def undecodableArgsResponse : AIResponse :=
  { tool_calls := ToolCallsField.list
      [⟨some "1", some ⟨some "get_table_schema", none, Jval.str ("not json")⟩⟩] }

/-- C4 is false as stated: for a structured entry whose string `arguments`
fails JSON decoding, the normalizer keeps the raw string — the produced
`ToolCall` does not carry the empty map. -/
theorem C4_undecodable_arguments_cex :
    parse_tool_calls undecodableArgsResponse
      = .ok [⟨some "1", some "get_table_schema", 1, Jval.str ("not json")⟩]
    ∧ Jval.str ("not json") ≠ Jval.obj [] :=
  ⟨rfl, fun h => Jval.noConfusion h⟩

/-- C4 as amended: for every structured entry whose `arguments` field is a
string failing JSON decoding, the normalizer produces the `ToolCall` with
the raw string kept as its arguments value (only a `None` arguments becomes
the empty map), and the turn is not aborted: the call list is returned
normally with the entry present. -/
theorem C4_undecodable_arguments_kept (id nm : Option String) (s : String)
    (hdec : jsonLoads s = none) :
    parse_tool_calls { tool_calls := ToolCallsField.list [⟨id, some ⟨nm, none, Jval.str s⟩⟩] }
      = .ok [⟨id, nm, 1, Jval.str s⟩] := by
  simp [parse_tool_calls, parseStructuredEntry, hdec]

/-- A second structured response with an undecodable string argument, used
only by the witness below. -/
def undecodableArgsResponse2 : AIResponse :=
  { tool_calls := ToolCallsField.list
      [⟨some "7", some ⟨some "get_table_list", none, Jval.str ("\x7bbroken")⟩⟩] }

/-- Witness for C4 at a concrete undecodable string. -/
theorem C4_undecodable_arguments_kept_witness :
    parse_tool_calls undecodableArgsResponse2
      = .ok [⟨some "7", some "get_table_list", 1, Jval.str ("\x7bbroken")⟩] :=
  C4_undecodable_arguments_kept (some "7") (some "get_table_list") ("\x7bbroken") rfl

/-! ## Claim C5 -/

/-- A backend response carrying one call as a structured array entry (no
backend-assigned id, as for the backends that cannot emit ids). -/
def structuredCallResponse (nm : String) (fields : List (String × Jval)) : AIResponse :=
  { tool_calls := ToolCallsField.list [⟨none, some ⟨some nm, none, Jval.obj fields⟩⟩] }

/-- A backend response carrying a call only in its content. -/
def contentResponse (c : String) : AIResponse := { content := some c }

/-- The canonical `ToolCall` produced for name `nm` and argument map
`fields`. -/
def canonicalCall (nm : String) (fields : List (String × Jval)) : ParsedToolCall :=
  ⟨none, some nm, 1, Jval.obj fields⟩

/-- C5: the three supported wire shapes carrying the same name and argument
map normalize to the identical canonical tool-call list.  The structured
shape needs no side conditions; the two free-text shapes are characterized
by the prefix their trimmed content starts with, the extracted (resp.
whole) JSON text parsing to an object, and that object carrying the given
name and argument map. -/
theorem C5_wire_shapes_normalize_identically (nm : String) (fields : List (String × Jval))
    (cFenced cBare : String) (jtxt : List Char) (mFenced mBare : List (String × Jval))
    (hp1 : pyStartsWith (pyStrip cFenced) ("```json\n\x7b\n") = true)
    (hx1 : searchFencedJson cFenced.data = some jtxt)
    (hj1 : jsonLoads ⟨jtxt⟩ = some (Jval.obj mFenced))
    (hn1 : jLookup ("name") mFenced = some (Jval.str nm))
    (ha1 : jLookup ("arguments") mFenced = some (Jval.obj fields))
    (hp2f : pyStartsWith (pyStrip cBare) ("```json\n\x7b\n") = false)
    (hp2 : pyStartsWith (pyStrip cBare) ("\x7b\"name\"") = true)
    (hj2 : jsonLoads cBare = some (Jval.obj mBare))
    (hn2 : jLookup ("name") mBare = some (Jval.str nm))
    (ha2 : jLookup ("arguments") mBare = some (Jval.obj fields)) :
    parse_tool_calls (structuredCallResponse nm fields) = .ok [canonicalCall nm fields]
    ∧ parse_tool_calls (contentResponse cFenced) = .ok [canonicalCall nm fields]
    ∧ parse_tool_calls (contentResponse cBare) = .ok [canonicalCall nm fields] := by
  refine ⟨?_, ?_, ?_⟩
  · simp [parse_tool_calls, structuredCallResponse, parseStructuredEntry, canonicalCall]
  · simp [parse_tool_calls, contentResponse, parseContentToolCalls, hp1, hx1, hj1,
      canonicalCall, jStrField, jGet, hn1, ha1]
  · simp [parse_tool_calls, contentResponse, parseContentToolCalls, hp2f, hp2, hj2,
      canonicalCall, jStrField, jGet, hn2, ha2]

/-- Witness for C5 with the concrete fenced and bare contents used by the
backends that answer in free text. -/
theorem C5_wire_shapes_normalize_identically_witness :
    parse_tool_calls (structuredCallResponse ("get_table_schema")
        [("table_name", Jval.str ("users"))])
      = .ok [canonicalCall ("get_table_schema") [("table_name", Jval.str ("users"))]]
    ∧ parse_tool_calls (contentResponse fencedCallContent)
      = .ok [canonicalCall ("get_table_schema") [("table_name", Jval.str ("users"))]]
    ∧ parse_tool_calls (contentResponse
        ("\x7b\"name\": \"get_table_schema\", \"arguments\": \x7b\"table_name\": \"users\"\x7d\x7d"))
      = .ok [canonicalCall ("get_table_schema") [("table_name", Jval.str ("users"))]] :=
  C5_wire_shapes_normalize_identically ("get_table_schema")
    [("table_name", Jval.str ("users"))] fencedCallContent
    ("\x7b\"name\": \"get_table_schema\", \"arguments\": \x7b\"table_name\": \"users\"\x7d\x7d")
    ("\x7b\n \"name\": \"get_table_schema\", \"arguments\": \x7b\"table_name\": \"users\"\x7d\n\x7d").data
    [("name", Jval.str ("get_table_schema")),
     ("arguments", Jval.obj [("table_name", Jval.str ("users"))])]
    [("name", Jval.str ("get_table_schema")),
     ("arguments", Jval.obj [("table_name", Jval.str ("users"))])]
    rfl rfl rfl rfl rfl rfl rfl rfl rfl rfl

/-! ## Claim C6 -/

/-- C6: execution never raises past the executor boundary.  First conjunct:
the per-call body of `_exec_tool_response` catches any failure of the
underlying tool (including the `TypeError` of unpacking bad arguments) and
serializes it into the result content as a JSON object with an `error`
field, instead of propagating the exception.  Second conjunct: for every
response that actually carries a tool-call list, the executor returns an
ordinary result list — no exception value. -/
theorem C6_tool_failure_serialized (impl : String → Jval → Except String Jval)
    (tc : ParsedToolCall) (n e : String)
    (hn : tc.name = some n) (hmem : n ∈ available_tools)
    (hfail : pyCallTool impl n tc.arguments = .error e) :
    execOneToolCall impl tc
      = some ⟨tc.tool_call_id, n, jsonDumps (Jval.obj [("error", Jval.str e)])⟩
    ∧ ∀ (r : AIResponse) (cs : List RawToolCall),
        r.tool_calls = ToolCallsField.list cs →
        ∃ rs, exec_tool_response impl r = .ok rs := by
  constructor
  · simp [execOneToolCall, hn, hmem, hfail]
  · intro r cs h
    exact ⟨_, exec_tool_response_list_ok impl r cs h⟩

/-- A tool implementation that always raises. -/
def failingImpl : String → Jval → Except String Jval := fun _ _ => .error ("boom")

/-- Witness for C6: a concrete failing tool call is serialized into an
error-object tool result. -/
theorem C6_tool_failure_serialized_witness :
    execOneToolCall failingImpl ⟨some "9", some "get_table_list", 1, Jval.obj []⟩
      = some ⟨some "9", "get_table_list", jsonDumps (Jval.obj [("error", Jval.str ("boom"))])⟩
    ∧ ∀ (r : AIResponse) (cs : List RawToolCall),
        r.tool_calls = ToolCallsField.list cs →
        ∃ rs, exec_tool_response failingImpl r = .ok rs :=
  C6_tool_failure_serialized failingImpl ⟨some "9", some "get_table_list", 1, Jval.obj []⟩
    ("get_table_list") ("boom") rfl (by decide) rfl

/-! ## Claim C10 -/

/-- The system message built at session start. -/
def systemMessage (question : String) : Message :=
  { role := "system", content := make_system_prompt ("") ("") question true }

def userMessage (question : String) : Message :=
  { role := "user", content := question }

/-- C10: a turn whose tool-call list names a tool outside the executable
registry is skipped silently.  The executor produces no `ToolResult` for it
(first conjunct); the loop counts the turn and continues — the engine makes
a second backend call whose conversation contains no tool message and no
error for the skipped call, and the session outcome is whatever the next
turn produces (here: the second turn's backend error), not a tool error
(second conjunct).  Third conjunct: `get_database_info` is advertised in the
tool definitions yet absent from the registry, so all of this applies to
it. -/
theorem C10_unknown_tool_skipped_silently (impl : String → Jval → Except String Jval)
    (dbExec : String → Except String Jval) (backend : Nat → AIResponse)
    (question nm e : String) (id : Option String) (args : Jval)
    (hnm : nm ∉ available_tools)
    (h0 : backend 0 = { tool_calls := ToolCallsField.list [⟨id, some ⟨some nm, none, args⟩⟩] })
    (h1 : backend 1 = { error := some e }) :
    exec_tool_response impl (backend 0) = .ok []
    ∧ natural_language_query_with_tools backend dbExec impl question
        = (some (backendFailResponse e),
           [[systemMessage question, userMessage question],
            [systemMessage question, userMessage question]])
    ∧ ("get_database_info" ∈ tools_definition_names
       ∧ "get_database_info" ∉ available_tools) := by
  have hexec : exec_tool_response impl (backend 0) = .ok [] := by
    rw [exec_tool_response_list_ok impl (backend 0)
      [⟨id, some ⟨some nm, none, args⟩⟩] (by rw [h0])]
    simp [parseStructuredEntry, execOneToolCall, hnm]
  refine ⟨hexec, ?_, by decide, by decide⟩
  unfold natural_language_query_with_tools max_tool_calls
  rw [show (10 : Nat) = 9 + 1 from rfl, agentLoopAux]
  have hts0 : thinkStripResponse (backend 0)
      = { tool_calls := ToolCallsField.list [⟨id, some ⟨some nm, none, args⟩⟩] } := by
    rw [h0]; rfl
  have hexec2 : exec_tool_response impl
      ({ tool_calls := ToolCallsField.list [⟨id, some ⟨some nm, none, args⟩⟩] } : AIResponse)
      = .ok [] := by
    rw [← h0]; exact hexec
  rw [hts0]
  simp only [hexec2]
  rw [show (9 : Nat) = 8 + 1 from rfl, agentLoopAux]
  have hts1 : thinkStripResponse (backend 1) = { error := some e } := by
    rw [h1]; rfl
  rw [hts1]
  simp [systemMessage, userMessage]

/-- A backend that first requests the advertised-but-unregistered tool
`get_database_info` and then fails. -/
def unknownToolBackend : Nat → AIResponse := fun i =>
  if i = 0 then
    { tool_calls := ToolCallsField.list
        [⟨some "1", some ⟨some "get_database_info", none, Jval.obj []⟩⟩] }
  else { error := some ("backend down") }

/-- Witness for C10 at the advertised tool `get_database_info`. -/
theorem C10_unknown_tool_skipped_silently_witness :
    exec_tool_response mockImpl (unknownToolBackend 0) = .ok []
    ∧ natural_language_query_with_tools unknownToolBackend mockDb mockImpl ("고객 목록 조회")
        = (some (backendFailResponse ("backend down")),
           [[systemMessage ("고객 목록 조회"), userMessage ("고객 목록 조회")],
            [systemMessage ("고객 목록 조회"), userMessage ("고객 목록 조회")]])
    ∧ ("get_database_info" ∈ tools_definition_names
       ∧ "get_database_info" ∉ available_tools) :=
  C10_unknown_tool_skipped_silently mockImpl mockDb unknownToolBackend ("고객 목록 조회")
    ("get_database_info") ("backend down") (some "1") (Jval.obj [])
    (by decide) rfl rfl

/-! ## Claim C7 -/

/-- A stand-in for `natural_language_query_work` as seen by the entry
point; the guard must reject before this is ever consulted. -/
def someWork : String → Option WorkResponse × Nat := fun _ =>
  (some { success := true }, 1)

/-- C7 is false as stated for the empty question: `""` falls under the
claim's scope (its trimmed length 0 is shorter than 5) yet the entry point
rejects it through the earlier `if not question` guard with the
missing-question error, not the ambiguous-question error. -/
theorem C7_empty_question_cex :
    ((pyStrip ("")).length < 5)
    ∧ mcp_natural_language_query someWork ("")
        = (MCPResult.failed missingQuestionMsg, 0)
    ∧ missingQuestionMsg ≠ ambiguousQuestionMsg :=
  ⟨by decide, rfl, by decide⟩

/-- C7 as amended: every NONEMPTY question that is purely numeric or whose
trimmed length is shorter than 5 characters is rejected by the entry point
with the ambiguous-question error, with zero backend calls made (the empty
question is likewise rejected before any backend call, but with the
missing-question error). -/
theorem C7_guard_rejects_before_backend (work : String → Option WorkResponse × Nat)
    (question : String) (hne : question ≠ "")
    (hg : pyIsDigit question = true ∨ (pyStrip question).length < 5) :
    mcp_natural_language_query work question = (MCPResult.failed ambiguousQuestionMsg, 0) := by
  have hcond : (pyIsDigit question || decide ((pyStrip question).length < 5)) = true := by
    rcases hg with h | h
    · simp [h]
    · simp [h]
  unfold mcp_natural_language_query
  rw [if_neg hne, if_pos hcond]

/-- Witness for C7 at the two inputs named by the claim: `"12345"` and
`"hi"` are both rejected with the ambiguous-question error and zero backend
calls. -/
theorem C7_guard_rejects_before_backend_witness :
    mcp_natural_language_query someWork ("12345")
        = (MCPResult.failed ambiguousQuestionMsg, 0)
    ∧ mcp_natural_language_query someWork ("hi")
        = (MCPResult.failed ambiguousQuestionMsg, 0) :=
  ⟨C7_guard_rejects_before_backend someWork ("12345") (by decide) (Or.inl rfl),
   C7_guard_rejects_before_backend someWork ("hi") (by decide) (Or.inr (by decide))⟩

/-! ## Claim C9 -/

/-- A backend that requests `get_table_list` on turn one,
`get_table_schema` on turn two, and gives a final SQL answer on turn
three. -/
def twoToolTurnBackend : Nat → AIResponse := fun i =>
  if i = 0 then
    { tool_calls := ToolCallsField.list
        [⟨some "1", some ⟨some "get_table_list", none, Jval.obj []⟩⟩] }
  else if i = 1 then
    { tool_calls := ToolCallsField.list
        [⟨some "2", some ⟨some "get_table_schema", none, Jval.obj []⟩⟩] }
  else { content := some ("SELECT * FROM users;") }

/-- The tool result produced in the first turn of that session. -/
def firstTurnResult : ToolResultRec :=
  { tool_call_id := some "1", name := "get_table_list",
    content := jsonDumps (Jval.str ("get_table_list")) }

/-- C9 is false as stated: the accumulated `tool_results` list is never
cleared, so the result of turn one appears ONCE in the conversation sent on
the second backend call but TWICE in the conversation sent on the third
backend call — it is appended again rather than exactly once. -/
theorem C9_tool_result_duplicated_cex :
    ((natural_language_query_with_tools twoToolTurnBackend mockDb mockImpl
        ("사용자를 보여줘")).2).map (fun ms => ms.count (toolMsg firstTurnResult))
      = [0, 1, 2] := by
  decide

/-- C9 as amended: a `ToolResult`, once produced, is never dropped — the
conversation of every later backend call extends the current conversation
followed by the tool messages of ALL results accumulated so far; in
particular every accumulated result is appended before every subsequent
backend call (hence re-appended each round, not exactly once). -/
theorem C9_tool_results_never_dropped (backend : Nat → AIResponse)
    (dbExec : String → Except String Jval) (impl : String → Jval → Except String Jval)
    (maxCalls : Nat) :
    ∀ fuel msgs trs count,
      ∀ ms ∈ (agentLoopAux backend dbExec impl maxCalls fuel msgs trs count).2,
        ∃ t, (msgs ++ trs.map toolMsg) ++ t = ms := by
  intro fuel
  induction fuel with
  | zero => intro msgs trs count ms hms; simp [agentLoopAux] at hms
  | succ n ih =>
    intro msgs trs count ms hms
    rw [agentLoopAux] at hms
    have base : ∀ ms', ms' ∈ [msgs ++ trs.map toolMsg] →
        ∃ t, (msgs ++ trs.map toolMsg) ++ t = ms' := by
      intro ms' h
      rw [List.mem_singleton] at h
      exact ⟨[], by rw [List.append_nil, h]⟩
    revert hms
    split
    · exact fun hms => base ms hms
    · split
      · exact fun hms => base ms hms
      · exact fun hms => base ms hms
      · split
        · exact fun hms => base ms hms
        · exact fun hms => base ms hms
      · split
        · exact fun hms => base ms hms
        · rename_i results hres
          intro hms
          rcases List.mem_cons.mp hms with h | h
          · exact ⟨[], by rw [List.append_nil, h]⟩
          · obtain ⟨t, ht⟩ := ih _ _ _ ms h
            refine ⟨List.map toolMsg (trs ++ results) ++ t, ?_⟩
            rw [← List.append_assoc]
            exact ht

/-- Witness for C9's amended statement on a concrete one-turn session. -/
theorem C9_tool_results_never_dropped_witness :
    ∃ t, (([] : List Message) ++ ([] : List ToolResultRec).map toolMsg) ++ t
        = ([] : List Message) :=
  C9_tool_results_never_dropped (fun _ => { error := some ("x") }) mockDb mockImpl 1 1
    [] [] 0 [] (by decide)

/-! ## Claim C8: sanitization and idempotence -/

theorem dropWhile_twice {α : Type} (p : α → Bool) (l : List α) :
    (l.dropWhile p).dropWhile p = l.dropWhile p := by
  induction l with
  | nil => rfl
  | cons a t ih =>
    by_cases h : p a
    · simp [List.dropWhile_cons, h, ih]
    · simp [List.dropWhile_cons, h]

theorem dropWhile_head_false {α : Type} (p : α → Bool) (a : α) (t : List α)
    (h : List.dropWhile p (a :: t) = a :: t) : p a = false := by
  by_cases hp : p a
  · exfalso
    rw [List.dropWhile_cons, if_pos hp] at h
    have hle := List.IsSuffix.length_le
      (List.dropWhile_suffix p : List.dropWhile p t <:+ t)
    rw [h] at hle
    simp at hle
  · simpa using hp

theorem stripChars_reverse_eq (l : List Char) :
    (stripChars l).reverse = ((l.dropWhile isPyWs).reverse).dropWhile isPyWs := by
  unfold stripChars
  rw [List.reverse_reverse]

theorem stripChars_append_eq (l : List Char) :
    ∃ u, stripChars l ++ u = l.dropWhile isPyWs := by
  obtain ⟨u, hu⟩ :=
    (List.dropWhile_suffix isPyWs :
      List.dropWhile isPyWs ((l.dropWhile isPyWs).reverse) <:+ (l.dropWhile isPyWs).reverse)
  refine ⟨u.reverse, ?_⟩
  have h2 : u ++ (stripChars l).reverse = (l.dropWhile isPyWs).reverse := by
    rw [stripChars_reverse_eq]; exact hu
  have h3 := congrArg List.reverse h2
  rw [List.reverse_append, List.reverse_reverse, List.reverse_reverse] at h3
  exact h3

theorem stripChars_left_fixed (l : List Char) :
    (stripChars l).dropWhile isPyWs = stripChars l := by
  obtain ⟨u, hu⟩ := stripChars_append_eq l
  cases hr : stripChars l with
  | nil => rfl
  | cons a t =>
    rw [hr] at hu
    have hfix : (l.dropWhile isPyWs).dropWhile isPyWs = l.dropWhile isPyWs :=
      dropWhile_twice _ _
    rw [← hu] at hfix
    have ha : isPyWs a = false :=
      dropWhile_head_false isPyWs a (t ++ u) hfix
    rw [List.dropWhile_cons, ha]
    simp

theorem stripChars_idem (l : List Char) : stripChars (stripChars l) = stripChars l := by
  show ((((stripChars l).dropWhile isPyWs).reverse).dropWhile isPyWs).reverse = stripChars l
  rw [stripChars_left_fixed, stripChars_reverse_eq, dropWhile_twice,
    ← stripChars_reverse_eq, List.reverse_reverse]

theorem pyStrip_mk_stripChars (g : List Char) :
    pyStrip ⟨stripChars g⟩ = (⟨stripChars g⟩ : String) := by
  show (⟨stripChars (stripChars g)⟩ : String) = ⟨stripChars g⟩
  rw [stripChars_idem]

theorem ipo_expand : ∀ (a b : List Char), a.isPrefixOf b = true → ∃ t, a ++ t = b
  | [], b, _ => ⟨b, rfl⟩
  | _ :: _, [], h => by simp [List.isPrefixOf] at h
  | x :: xs, y :: ys, h => by
    simp only [List.isPrefixOf, Bool.and_eq_true] at h
    obtain ⟨hxy, hr⟩ := h
    obtain ⟨t, ht⟩ := ipo_expand xs ys hr
    exact ⟨t, by rw [List.cons_append, ht, eq_of_beq hxy]⟩

theorem ipo_of_append (a t : List Char) : a.isPrefixOf (a ++ t) = true := by
  induction a with
  | nil => simp [List.isPrefixOf]
  | cons x xs ih => simp [List.isPrefixOf, ih]

theorem ipo_trans {a b c : List Char} (h1 : a.isPrefixOf b = true)
    (h2 : b.isPrefixOf c = true) : a.isPrefixOf c = true := by
  obtain ⟨t1, ht1⟩ := ipo_expand _ _ h1
  obtain ⟨t2, ht2⟩ := ipo_expand _ _ h2
  rw [← ht2, ← ht1, List.append_assoc]
  exact ipo_of_append a (t1 ++ t2)

theorem containsSub_of_ipo {n l : List Char} (h : n.isPrefixOf l = true) :
    containsSub n l = true := by
  cases l with
  | nil => simpa [containsSub] using h
  | cons c rest => simp [containsSub, h]

theorem matchFenceAt_ipo {openTok l g : List Char}
    (h : matchFenceAt openTok l = some g) : openTok.isPrefixOf l = true := by
  by_cases hp : openTok.isPrefixOf l = true
  · exact hp
  · simp [matchFenceAt, hp] at h

theorem searchFence_contains (openTok : List Char)
    (hop : (['`', '`', '`'] : List Char).isPrefixOf openTok = true) :
    ∀ l g, searchFence openTok l = some g → containsSub ['`', '`', '`'] l = true := by
  intro l
  induction l with
  | nil => intro g h; simp [searchFence] at h
  | cons c rest ih =>
    intro g h
    rw [searchFence] at h
    cases hm : matchFenceAt openTok (c :: rest) with
    | some g' =>
      have hpc := ipo_trans hop (matchFenceAt_ipo hm)
      simp [containsSub, hpc]
    | none =>
      rw [hm] at h
      simp [containsSub, ih g h]

theorem searchSingleLineFence_contains :
    ∀ l g, searchSingleLineFence l = some g → containsSub ['`', '`', '`'] l = true := by
  intro l
  induction l with
  | nil => intro g h; simp [searchSingleLineFence] at h
  | cons c rest ih =>
    intro g h
    by_cases hp : (['`', '`', '`'] : List Char).isPrefixOf (c :: rest) = true
    · simp [containsSub, hp]
    · rw [searchSingleLineFence] at h
      simp only [hp, Bool.false_eq_true, if_false, Option.none_orElse] at h
      simp [containsSub, ih g h]

theorem strip_markdown_sql_stripped (x : String) :
    pyStrip (strip_markdown_sql x) = strip_markdown_sql x := by
  unfold strip_markdown_sql
  split
  · rename_i hx
    rw [hx]
    decide
  · cases h1 : searchFence ['`', '`', '`', 's', 'q', 'l'] x.data with
    | some g => simp only [h1]; exact pyStrip_mk_stripChars g
    | none =>
      simp only [h1]
      cases h2 : searchFence ['`', '`', '`'] x.data with
      | some g => simp only [h2]; exact pyStrip_mk_stripChars g
      | none =>
        simp only [h2]
        cases h3 : searchSingleLineFence x.data with
        | some g => simp only [h3]; exact pyStrip_mk_stripChars g
        | none =>
          simp only [h3]
          exact pyStrip_mk_stripChars x.data

theorem strip_markdown_sql_no_fence (x : String)
    (h : containsSub ['`', '`', '`'] x.data = false) :
    strip_markdown_sql x = pyStrip x := by
  have h1 : searchFence ['`', '`', '`', 's', 'q', 'l'] x.data = none := by
    cases hs : searchFence ['`', '`', '`', 's', 'q', 'l'] x.data with
    | none => rfl
    | some g =>
      have hc := searchFence_contains _ (by decide) _ _ hs
      rw [h] at hc; simp at hc
  have h2 : searchFence ['`', '`', '`'] x.data = none := by
    cases hs : searchFence ['`', '`', '`'] x.data with
    | none => rfl
    | some g =>
      have hc := searchFence_contains _ (by decide) _ _ hs
      rw [h] at hc; simp at hc
  have h3 : searchSingleLineFence x.data = none := by
    cases hs : searchSingleLineFence x.data with
    | none => rfl
    | some g =>
      have hc := searchSingleLineFence_contains _ _ hs
      rw [h] at hc; simp at hc
  unfold strip_markdown_sql
  split
  · rename_i hx
    rw [hx]
    decide
  · simp only [h1, h2, h3]

theorem pretty_format_sql_id (s : String) : pretty_format_sql s = s := by
  unfold pretty_format_sql sqlparseFormat
  exact ite_self s

/-- C8 is false as stated: on an input whose fenced body itself contains a
single-line pair of triple-backtick fences, the second application of the
sanitization pipeline re-extracts the inner fence, so sanitization is not
idempotent.  Concretely the first pass gives `x` followed by a fenced `a`
and the second pass gives `a` alone. -/
theorem C8_sanitize_not_idempotent_cex :
    sanitizeSql (sanitizeSql ("```sql\n x```a``` \n```"))
      ≠ sanitizeSql ("```sql\n x```a``` \n```") := by
  decide

/-- C8 as amended: the sanitization pipeline (markdown-fence stripping
followed by pretty-printing, with the pretty-printer modelled from the spec
as a cosmetic no-op) is idempotent on every input whose sanitized output
contains no triple-backtick sequence; it is not idempotent in general (see
the counterexample). -/
theorem C8_sanitize_conditionally_idempotent (x : String)
    (h : pyContains (sanitizeSql x) ("```") = false) :
    sanitizeSql (sanitizeSql x) = sanitizeSql x := by
  have hs : ∀ y, sanitizeSql y = strip_markdown_sql y := fun y => pretty_format_sql_id _
  rw [hs] at h
  rw [hs, hs]
  have h' : containsSub ['`', '`', '`'] (strip_markdown_sql x).data = false := h
  rw [strip_markdown_sql_no_fence _ h']
  exact strip_markdown_sql_stripped x

/-- Witness for C8's amended statement at the spec's own example input. -/
theorem C8_sanitize_conditionally_idempotent_witness :
    pyContains (sanitizeSql ("```sql\nSELECT 1;\n```")) ("```") = false
    ∧ sanitizeSql (sanitizeSql ("```sql\nSELECT 1;\n```"))
        = sanitizeSql ("```sql\nSELECT 1;\n```") :=
  ⟨rfl, C8_sanitize_conditionally_idempotent ("```sql\nSELECT 1;\n```") rfl⟩
